import Mathlib

/-!
Shallow embedding of the journaling application (Electron/React/Supabase
client) for verification of its specification.

The embedding covers:
* the AI orchestration service (`aiService.chat`, `chatWithOllama`,
  `chatWithDeepSeek`, `saveConversation`, `generateConversationTitle`)
  from the AI service module;
* the voice-note and entries services (`createVoiceNote`, `deleteEntry`,
  `deleteVoiceNote`, `getVoiceNote`, `getVoiceNotesByEntryId`) from
  `SupabaseEntriesService.ts` and the storage service;
* the messages service (`createExchange`) from `SupabaseMessagesService.ts`;
* the service factory (`ServiceFactory.ts`).

Asynchronous service calls are modelled by explicit outcome oracles
(one outcome per attempt index, or one outcome per backend call), and
mutable backend state (database rows, storage objects) is threaded
explicitly.  JavaScript thrown values are modelled by the `JsError`
type; a TypeScript function that never lets an exception escape is
embedded as a total Lean function returning its result type.
-/

/-- Model of a JavaScript thrown value as discriminated by the source:
an axios error (carrying an optional `response.data.error` payload field
and a `message`), a plain `Error` (carrying a `message`), or a thrown
non-`Error` value. -/
inductive JsError where
  | axios (respDataError : Option String) (message : String)
  | err (message : String)
  | nonError
deriving Repr, DecidableEq

/-- Embedding of the JavaScript idiom `s || dflt` on strings: the empty
string is falsy and is replaced by the default. -/
def jsOrString (s dflt : String) : String :=
  if s = "" then dflt else s

/-- Embedding of `options.retries || 2` (AI service, both provider
dispatch functions): a missing retries option, and also an explicit `0`
(falsy in JavaScript), fall back to `2`. -/
def jsOrRetries (retries : Option Nat) : Nat :=
  match retries with
  | none => 2
  | some r => if r = 0 then 2 else r

/-- Backoff delay computed after a failed attempt, from
`Math.min(1000 * Math.pow(2, attempt - 1), 8000)` in both retry loops of
the AI service. -/
def backoffDelay (attempt : Nat) : Nat :=
  min (1000 * 2 ^ (attempt - 1)) 8000

/-- Observable trace of one run of a provider retry loop: the successful
response text (if any), the last caught error, the number of attempts
made, and the list of backoff delays waited (in order). -/
structure RetryTrace where
  result : Option String
  lastError : Option JsError
  attempts : Nat
  delays : List Nat
deriving Repr, DecidableEq

/-- Embedding of the retry `for` loop shared by `chatWithOllama` and
`chatWithDeepSeek`: attempts run at indices `i = 1, ..., maxRetries`;
a successful attempt returns immediately; a failed attempt records the
error and, when `i < maxRetries`, waits `backoffDelay i` before the next
attempt.  `att i` is the outcome of attempt `i` (the provider call with
its response-shape checks).  The `fuel` argument counts the remaining
loop iterations; the loop is entered with `fuel = maxRetries`. -/
def retryGo (att : Nat → Except JsError String) (maxRetries : Nat) :
    Nat → Nat → Option JsError → RetryTrace
  | 0, _, last => { result := none, lastError := last, attempts := 0, delays := [] }
  | fuel + 1, i, last =>
    match att i with
    | .ok t => { result := some t, lastError := last, attempts := 1, delays := [] }
    | .error e =>
      if i < maxRetries then
        let rest := retryGo att maxRetries fuel (i + 1) (some e)
        { result := rest.result, lastError := rest.lastError,
          attempts := rest.attempts + 1, delays := backoffDelay i :: rest.delays }
      else
        { result := none, lastError := some e, attempts := 1, delays := [] }

/-- Run a provider retry loop from attempt `1` with no previous error. -/
def runRetry (att : Nat → Except JsError String) (maxRetries : Nat) : RetryTrace :=
  retryGo att maxRetries maxRetries 1 none

/-- Provider tag, from the `provider` chat option
(`'ollama' | 'deepseek'`). -/
inductive Provider where
  | ollama
  | deepseek
deriving Repr, DecidableEq

/-- Options record for `aiService.chat` and the provider dispatch
functions (`ChatOptions` in the AI service module).  Absent optional
fields are `none`. -/
structure ChatOptions where
  model : Option String := none
  temperature : Option ℚ := none
  maxTokens : Option Nat := none
  stream : Option Bool := none
  provider : Option Provider := none
  retries : Option Nat := none
  conversationId : Option String := none
  saveConversation : Option Bool := none
  conversationTitle : Option String := none
  contextType : Option String := none
  contextReference : Option String := none
  context : Option String := none
deriving Repr, DecidableEq

/-- Result shape of a chat call (`ChatResponse` in the AI service
module): `{ success, text?, error? }`. -/
structure ChatResponse where
  success : Bool
  text : Option String := none
  error : Option String := none
deriving Repr, DecidableEq

/-- Body of an Ollama generation reply: the `data` object of the axios
response, whose `response` field holds the generated text. -/
structure OllamaData where
  response : Option String
deriving Repr, DecidableEq

/-- An axios response from the Ollama endpoint; `data` is the parsed
JSON body (absent models a falsy `response.data`). -/
structure OllamaHttpResponse where
  data : Option OllamaData
deriving Repr, DecidableEq

/-- One attempt of the Ollama call: the HTTP POST outcome `att i`
followed by the response-shape check from the source
(`if (!response.data || !response.data.response) throw ...`); an empty
`response` string is falsy in JavaScript and is also rejected. -/
def ollamaAttempt (att : Nat → Except JsError OllamaHttpResponse) (i : Nat) :
    Except JsError String :=
  match att i with
  | .error e => .error e
  | .ok resp =>
    match resp.data with
    | none => .error (.err "Invalid response from Ollama API")
    | some d =>
      match d.response with
      | none => .error (.err "Invalid response from Ollama API")
      | some t =>
        if t = "" then .error (.err "Invalid response from Ollama API") else .ok t

/-- Error-message extraction after the Ollama retry loop exhausts: an
axios error prefers `response.data.error`, then `message`, then a
network-error default; a plain `Error` contributes its message; any
other value leaves the generic default in place. -/
def extractOllamaErrorMessage (lastError : Option JsError) : String :=
  match lastError with
  | some (.axios respDataError message) =>
    match respDataError with
    | some s => if s = "" then jsOrString message "Network error during Ollama request" else s
    | none => jsOrString message "Network error during Ollama request"
  | some (.err message) => message
  | _ => "Failed to get response from Ollama"

/-- Embedding of `chatWithOllama`: run up to `options.retries || 2`
attempts with exponential backoff; on success return
`{success: true, text}`, after exhaustion return
`{success: false, error}` with the message extracted from the last
error.  The function is total: no exception escapes.  Returns the
response together with the trace of the retry loop. -/
def chatWithOllama (att : Nat → Except JsError OllamaHttpResponse)
    (options : ChatOptions) : ChatResponse × RetryTrace :=
  let maxRetries := jsOrRetries options.retries
  let tr := runRetry (ollamaAttempt att) maxRetries
  match tr.result with
  | some t => ({ success := true, text := some t }, tr)
  | none =>
    ({ success := false, error := some (extractOllamaErrorMessage tr.lastError) }, tr)

/-- Message object inside a DeepSeek completion choice. -/
structure DeepSeekMessage where
  content : Option String
deriving Repr, DecidableEq

/-- One completion choice of a DeepSeek chat completion. -/
structure DeepSeekChoice where
  message : Option DeepSeekMessage
deriving Repr, DecidableEq

/-- A DeepSeek chat completion: `choices` is absent when the reply has
no such array. -/
structure DeepSeekCompletion where
  choices : Option (List DeepSeekChoice)
deriving Repr, DecidableEq

/-- Environment/configuration store state (`envStore` plus
`window.env`): LLM endpoint configuration and the default provider. -/
structure EnvVars where
  LLM_API_URL_DEEPSEEK : String
  LLM_API_KEY_DEEPSEEK : String
  LLM_API_URL_OLLAMA : String
  LLM_API_KEY_OLLAMA : String
  DEFAULT_AI_PROVIDER : Provider
deriving Repr, DecidableEq

/-- One attempt of the DeepSeek call: `getOpenAIClient` throws when the
configured URL or key is empty; the reply must have a nonempty `choices`
array and the first choice must carry nonempty message content
(`if (!content) throw ...`, so an empty string is rejected). -/
def deepSeekAttempt (env : EnvVars) (att : Nat → Except JsError DeepSeekCompletion)
    (i : Nat) : Except JsError String :=
  if env.LLM_API_URL_DEEPSEEK = "" ∨ env.LLM_API_KEY_DEEPSEEK = "" then
    .error (.err "DeepSeek API URL or API Key not configured")
  else
    match att i with
    | .error e => .error e
    | .ok completion =>
      match completion.choices with
      | none => .error (.err "Invalid response format from DeepSeek API")
      | some [] => .error (.err "Invalid response format from DeepSeek API")
      | some (choice :: _) =>
        match choice.message with
        | none => .error (.err "Empty response from DeepSeek API")
        | some m =>
          match m.content with
          | none => .error (.err "Empty response from DeepSeek API")
          | some c =>
            if c = "" then .error (.err "Empty response from DeepSeek API") else .ok c

/-- Error-message extraction after the DeepSeek retry loop exhausts:
any `Error` instance (axios errors included) contributes its message,
anything else leaves the generic default. -/
def extractDeepSeekErrorMessage (lastError : Option JsError) : String :=
  match lastError with
  | some (.axios _ message) => message
  | some (.err message) => message
  | _ => "Failed to get response from DeepSeek"

/-- Embedding of `chatWithDeepSeek`: same retry shape as
`chatWithOllama`, with the DeepSeek attempt body and error extraction.
Total: no exception escapes. -/
def chatWithDeepSeek (env : EnvVars) (att : Nat → Except JsError DeepSeekCompletion)
    (options : ChatOptions) : ChatResponse × RetryTrace :=
  let maxRetries := jsOrRetries options.retries
  let tr := runRetry (deepSeekAttempt env att) maxRetries
  match tr.result with
  | some t => ({ success := true, text := some t }, tr)
  | none =>
    ({ success := false, error := some (extractDeepSeekErrorMessage tr.lastError) }, tr)

/-- Journal entry shape used by the AI service module (its local
`Entry` interface). -/
structure AiEntry where
  id : String
  title : String
  content : String
  createdAt : String
deriving Repr, DecidableEq

/-- Embedding of `generateConversationTitle`: a prompt longer than 50
characters is truncated to its first 47 characters plus `"..."`;
otherwise a single context entry lends its title, and otherwise the
prompt itself is the title.  JavaScript `substring(0, 47)` is modelled
by `String.take 47`. -/
def generateConversationTitle (prompt : String) (entries : Option (List AiEntry)) :
    String :=
  if 50 < prompt.length then
    prompt.take 47 ++ "..."
  else
    match entries with
    | some [e] => "About \"" ++ e.title ++ "\""
    | _ => prompt

/-- Default options built inside `aiService.chat`: the model depends on
the requested provider, the provider defaults to the configured
`DEFAULT_AI_PROVIDER`, retries default to `2`, saving defaults to
`false`. -/
def defaultChatOptions (env : EnvVars) (options : ChatOptions) : ChatOptions :=
  { model := some (match options.provider with
      | some .deepseek => "deepseek-chat"
      | _ => "gemma3:12b"),
    temperature := some (7 / 10 : ℚ),
    maxTokens := some 1024,
    stream := some false,
    provider := some env.DEFAULT_AI_PROVIDER,
    retries := some 2,
    saveConversation := some false }

/-- Embedding of `{ ...defaultOptions, ...options }`: a field present in
the caller options wins, otherwise the default applies. -/
def mergeOptions (env : EnvVars) (options : ChatOptions) : ChatOptions :=
  let d := defaultChatOptions env options
  { model := options.model <|> d.model,
    temperature := options.temperature <|> d.temperature,
    maxTokens := options.maxTokens <|> d.maxTokens,
    stream := options.stream <|> d.stream,
    provider := options.provider <|> d.provider,
    retries := options.retries <|> d.retries,
    conversationId := options.conversationId,
    saveConversation := options.saveConversation <|> d.saveConversation,
    conversationTitle := options.conversationTitle,
    contextType := options.contextType,
    contextReference := options.contextReference,
    context := options.context }

/-- Outcome of the best-effort persistence step `saveConversation`:
either the user/AI message pair was persisted, or some step failed and
the failure was only logged (the function itself never throws: its body
is wrapped in a catch-all that logs and returns). -/
inductive SaveOutcome where
  | saved
  | swallowed (message : String)
deriving Repr, DecidableEq

/-- Oracle for the backend calls made by `saveConversation`: the current
user (none when not authenticated), the outcome of
`createConversation` (the id of the new conversation, or an error
message), and the outcome of `createExchange` for a given conversation
id (`createExchange` returns an error value instead of throwing). -/
structure PersistEnv where
  currentUser : Option String
  createConversationResult : Except String String
  createExchangeResult : String → Except String Unit

/-- Embedding of `saveConversation`: with a conversation id, append the
exchange to it (the result of `createExchange` is not checked); without
one, create a conversation (title from the options or generated from
the prompt) and append the exchange to it.  A missing user or a failed
conversation creation throws inside the function body and is caught and
logged by its catch-all; a failed exchange is logged inside
`createExchange` and ignored here.  All failure modes are reported as
`swallowed` and never escape. -/
def saveConversation (pe : PersistEnv) (options : ChatOptions) : SaveOutcome :=
  match pe.currentUser with
  | none => .swallowed "User not authenticated"
  | some _ =>
    match options.conversationId with
    | some cid =>
      match pe.createExchangeResult cid with
      | .ok _ => .saved
      | .error m => .swallowed m
    | none =>
      match pe.createConversationResult with
      | .error m => .swallowed (jsOrString m "Failed to create conversation")
      | .ok convId =>
        match pe.createExchangeResult convId with
        | .ok _ => .saved
        | .error m => .swallowed m

/-- Provider dispatch inside `aiService.chat`: the merged options select
`chatWithDeepSeek` when the provider is `deepseek` and `chatWithOllama`
otherwise. -/
def dispatchResponse (env : EnvVars) (ollamaAtt : Nat → Except JsError OllamaHttpResponse)
    (deepSeekAtt : Nat → Except JsError DeepSeekCompletion) (options : ChatOptions) :
    ChatResponse :=
  match (mergeOptions env options).provider with
  | some .deepseek => (chatWithDeepSeek env deepSeekAtt (mergeOptions env options)).1
  | _ => (chatWithOllama ollamaAtt (mergeOptions env options)).1

/-- Embedding of `aiService.chat`: merge the options with the defaults,
dispatch to the selected provider, and, when the dispatch succeeded and
saving was requested, run the best-effort `saveConversation` step; the
dispatch response is returned unchanged in every case.  The second
component records the persistence outcome (`none` when no save was
attempted). -/
def chat (env : EnvVars) (ollamaAtt : Nat → Except JsError OllamaHttpResponse)
    (deepSeekAtt : Nat → Except JsError DeepSeekCompletion) (pe : PersistEnv)
    (options : ChatOptions) : ChatResponse × Option SaveOutcome :=
  let finalOptions := mergeOptions env options
  let response := dispatchResponse env ollamaAtt deepSeekAtt options
  if response.success = true ∧ finalOptions.saveConversation = some true then
    (response, some (saveConversation pe finalOptions))
  else
    (response, none)

/-- Request sent by `chatWithOllama`: an HTTP POST whose URL is built
from a base URL plus `/api/generate`, with the model, prompt,
temperature, max_tokens and stream flag from the options. -/
structure OllamaRequest where
  url : String
  model : Option String
  prompt : String
  temperature : Option ℚ
  max_tokens : Option Nat
  stream : Option Bool
deriving Repr, DecidableEq

/-- Base URL used by `chatWithOllama`: the source assigns the literal
`http://100.101.151.91:11434` to `llmApiUrl` (and then dead-checks it
for absence), ignoring the environment store it just read. -/
def ollamaApiUrl : String := "http://100.101.151.91:11434"

/-- Embedding of the request construction in `chatWithOllama`.  The
`env` parameter mirrors the `useEnvStore.getState()` read in the
source; the body does not consult it, because the base URL is the
hardcoded `ollamaApiUrl`. -/
def buildOllamaRequest (_env : EnvVars) (prompt : String) (options : ChatOptions) :
    OllamaRequest :=
  { url := ollamaApiUrl ++ "/api/generate",
    model := options.model,
    prompt := prompt,
    temperature := options.temperature,
    max_tokens := options.maxTokens,
    stream := options.stream }

/-- Modelled from the spec: the intended Ollama request URL is the
configurable base URL (`LLM_API_URL_OLLAMA`, editable in the settings
screen and stored in the environment store) followed by
`/api/generate`. -/
def specOllamaRequestUrl (env : EnvVars) : String :=
  env.LLM_API_URL_OLLAMA ++ "/api/generate"

/-- Row of the `voicenotes` table as written by
`SupabaseVoiceNoteService`. -/
structure VoiceNoteRow where
  id : String
  fileId : String
  userId : String
  entryId : Option String
  duration : Nat
  transcript : String
deriving Repr, DecidableEq

/-- Row of the `entries` table as written by `SupabaseEntriesService`. -/
structure EntryRow where
  id : String
  userId : String
  title : String
  content : String
deriving Repr, DecidableEq

/-- Backend state visible to the entries/voice-note services: the
`entries` and `voicenotes` tables and the set of stored object paths in
the storage bucket. -/
structure Db where
  entries : List EntryRow
  voicenotes : List VoiceNoteRow
  storage : List String
deriving Repr, DecidableEq

/-- Result shape `{ data, error }` of a single-voice-note operation. -/
structure VoiceNoteResult where
  data : Option VoiceNoteRow
  error : Option String
deriving Repr, DecidableEq

/-- Result shape `{ success, error }` of a delete operation. -/
structure DeleteResult where
  success : Bool
  error : Option String
deriving Repr, DecidableEq

/-- Embedding of `SupabaseStorageService.deleteFile`: remove the object
at the given path from the bucket. -/
def deleteFile (db : Db) (fileId : String) : Db :=
  { db with storage := db.storage.filter (fun p => p ≠ fileId) }

/-- Embedding of the `.select(*).eq(id, id).single()` lookup used by
`getVoiceNote`: the query succeeds exactly when one row matches. -/
def getVoiceNote (db : Db) (id : String) : Option VoiceNoteRow :=
  match db.voicenotes.filter (fun v => v.id = id) with
  | [v] => some v
  | _ => none

/-- Embedding of `getVoiceNotesByEntryId`: all rows whose `entryId`
equals the given entry id. -/
def getVoiceNotesByEntryId (db : Db) (entryId : String) : List VoiceNoteRow :=
  db.voicenotes.filter (fun v => v.entryId = some entryId)

/-- Embedding of `deleteVoiceNote` (fault-free backend): look the row up
(an absent row is an error), delete the row, then delete its stored
file (a file-deletion failure is swallowed in the source).  Returns the
updated state and the delete result. -/
def deleteVoiceNote (db : Db) (id : String) : Db × DeleteResult :=
  match getVoiceNote db id with
  | none => (db, { success := false, error := some "Voice note not found" })
  | some v =>
    let db1 := { db with voicenotes := db.voicenotes.filter (fun r => r.id ≠ id) }
    (deleteFile db1 v.fileId, { success := true, error := none })

/-- Embedding of `deleteEntry` (fault-free backend): fetch the voice
notes of the entry, delete the entry row, then delete each fetched
voice note in order (their individual results are not checked in the
source). -/
def deleteEntry (db : Db) (id : String) : Db × DeleteResult :=
  let voiceNotes := getVoiceNotesByEntryId db id
  let db1 := { db with entries := db.entries.filter (fun e => e.id ≠ id) }
  let db2 := voiceNotes.foldl (fun d vn => (deleteVoiceNote d vn.id).1) db1
  (db2, { success := true, error := none })

/-- Metadata supplied to `createVoiceNote`. -/
structure VoiceNoteMetadata where
  userId : String
  entryId : Option String
  duration : Nat
  transcript : Option String
deriving Repr, DecidableEq

/-- Storage path chosen by `createVoiceNote` for the upload, keyed by
user and (when present) entry. -/
def voiceNoteStoragePath (md : VoiceNoteMetadata) : String :=
  match md.entryId with
  | some eid => md.userId ++ "/entries/" ++ eid ++ "/voicenotes"
  | none => md.userId ++ "/voicenotes"

/-- Outcome of the `uploadFile` call inside `createVoiceNote`
(`uploadFile` never throws): a stored object path, a null path with no
error, or an error value. -/
inductive UploadOutcome where
  | ok (fileId : String)
  | noFileId
  | err (message : String)
deriving Repr, DecidableEq

/-- Outcome of the database insert inside `createVoiceNote`: an inserted
row, a returned error value, or a thrown exception. -/
inductive InsertOutcome where
  | ok
  | errObj (message : String)
  | thrown (e : JsError)
deriving Repr, DecidableEq

/-- Message of a caught value under `error instanceof Error ? error :
new Error(dflt)`. -/
def jsErrorMessageOr (e : JsError) (dflt : String) : String :=
  match e with
  | .axios _ message => message
  | .err message => message
  | .nonError => dflt

/-- Embedding of `createVoiceNote`: upload the file, then insert the
`voicenotes` row referencing the uploaded path; when the insert returns
an error or throws, delete the just-uploaded object and return an error
result (the thrown case is rethrown and caught by the outer catch-all,
so no exception escapes). -/
def createVoiceNote (db : Db) (upload : UploadOutcome) (insert : InsertOutcome)
    (voiceNoteId : String) (md : VoiceNoteMetadata) : Db × VoiceNoteResult :=
  match upload with
  | .err m => (db, { data := none, error := some m })
  | .noFileId => (db, { data := none, error := some "Failed to upload voice note file" })
  | .ok fileId =>
    let db1 := { db with storage := db.storage ++ [fileId] }
    match insert with
    | .ok =>
      let row : VoiceNoteRow :=
        { id := voiceNoteId, fileId := fileId, userId := md.userId,
          entryId := md.entryId, duration := md.duration,
          transcript := md.transcript.getD "" }
      ({ db1 with voicenotes := db1.voicenotes ++ [row] },
       { data := some row, error := none })
    | .errObj m =>
      (deleteFile db1 fileId, { data := none, error := some m })
    | .thrown e =>
      (deleteFile db1 fileId,
       { data := none, error := some (jsErrorMessageOr e "Unknown error") })

/-- Metadata object passed to `createExchange` by `saveConversation`. -/
structure ExchangeMeta where
  model : Option String
  provider : Option Provider
deriving Repr, DecidableEq

/-- Row of the `messages` table as written by
`SupabaseMessagesService`. -/
structure MessageRow where
  author : String
  content : String
  conversationId : String
  isLiked : Bool
  metadata : Option ExchangeMeta
deriving Repr, DecidableEq

/-- Result shape `{ data, error }` of a messages operation. -/
structure MessagesResult where
  data : List MessageRow
  error : Option String
deriving Repr, DecidableEq

/-- Embedding of `SupabaseMessagesService.createExchange`: insert the
user message, then the AI message, sequentially; a failed insert throws
and the catch-all returns `{data: [], error}`, without rolling back the
rows already inserted.  `userInsert` and `aiInsert` are the outcomes of
the two inserts (an error carries the message of the thrown backend
error). -/
def createExchange (messages : List MessageRow)
    (userInsert aiInsert : Except String Unit)
    (conversationId userPrompt aiResponse : String) (metadata : Option ExchangeMeta) :
    List MessageRow × MessagesResult :=
  match userInsert with
  | .error m =>
    (messages, { data := [], error := some (jsOrString m "Failed to create message exchange") })
  | .ok _ =>
    let userMessage : MessageRow :=
      { author := "user", content := userPrompt, conversationId := conversationId,
        isLiked := false, metadata := none }
    let messages1 := messages ++ [userMessage]
    match aiInsert with
    | .error m =>
      (messages1,
       { data := [], error := some (jsOrString m "Failed to create message exchange") })
    | .ok _ =>
      let aiMessage : MessageRow :=
        { author := "ai", content := aiResponse, conversationId := conversationId,
          isLiked := false, metadata := metadata }
      (messages1 ++ [aiMessage],
       { data := [userMessage, aiMessage], error := none })

/-- Backend provider tag of the service factory. -/
inductive BackendProvider where
  | appwrite
  | supabase
deriving Repr, DecidableEq

/-- State of the `ServiceFactory` singleton: the four cached service
instance fields, plus an allocation counter modelling JavaScript object
identity (each `new ...Service()` yields a fresh identity). -/
structure ServiceFactoryState where
  nextId : Nat
  authService : Option Nat
  profileService : Option Nat
  storageService : Option Nat
  databaseService : Option Nat
deriving Repr, DecidableEq

/-- Fresh factory state, as after `getInstance` first constructs the
singleton. -/
def initialFactoryState : ServiceFactoryState :=
  { nextId := 0, authService := none, profileService := none,
    storageService := none, databaseService := none }

/-- Embedding of `ServiceFactory.getAuthService`: return the cached
instance, otherwise construct one for the supabase backend and cache it
(any other backend throws). -/
def getAuthService (backend : BackendProvider) (s : ServiceFactoryState) :
    Except String (Nat × ServiceFactoryState) :=
  match s.authService with
  | some inst => .ok (inst, s)
  | none =>
    match backend with
    | .supabase => .ok (s.nextId, { s with authService := some s.nextId, nextId := s.nextId + 1 })
    | .appwrite => .error "Unsupported backend: appwrite"

/-- Embedding of `ServiceFactory.getProfileService` (cached, like
`getAuthService`). -/
def getProfileService (backend : BackendProvider) (s : ServiceFactoryState) :
    Except String (Nat × ServiceFactoryState) :=
  match s.profileService with
  | some inst => .ok (inst, s)
  | none =>
    match backend with
    | .supabase => .ok (s.nextId, { s with profileService := some s.nextId, nextId := s.nextId + 1 })
    | .appwrite => .error "Unsupported backend: appwrite"

/-- Embedding of `ServiceFactory.getStorageService` (cached, like
`getAuthService`). -/
def getStorageService (backend : BackendProvider) (s : ServiceFactoryState) :
    Except String (Nat × ServiceFactoryState) :=
  match s.storageService with
  | some inst => .ok (inst, s)
  | none =>
    match backend with
    | .supabase => .ok (s.nextId, { s with storageService := some s.nextId, nextId := s.nextId + 1 })
    | .appwrite => .error "Unsupported backend: appwrite"

/-- Embedding of `ServiceFactory.getDatabaseService` (cached, like
`getAuthService`). -/
def getDatabaseService (backend : BackendProvider) (s : ServiceFactoryState) :
    Except String (Nat × ServiceFactoryState) :=
  match s.databaseService with
  | some inst => .ok (inst, s)
  | none =>
    match backend with
    | .supabase => .ok (s.nextId, { s with databaseService := some s.nextId, nextId := s.nextId + 1 })
    | .appwrite => .error "Unsupported backend: appwrite"

/-- Embedding of the static `ServiceFactory.getVoiceNoteService`: no
cache field exists for it; every call on the supabase backend constructs
a new instance. -/
def getVoiceNoteService (backend : BackendProvider) (s : ServiceFactoryState) :
    Except String (Nat × ServiceFactoryState) :=
  match backend with
  | .appwrite => .error "Appwrite voice note service not implemented yet"
  | .supabase => .ok (s.nextId, { s with nextId := s.nextId + 1 })

/-- Embedding of the static `ServiceFactory.getEntriesService`: no
cache; a new instance per call. -/
def getEntriesService (backend : BackendProvider) (s : ServiceFactoryState) :
    Except String (Nat × ServiceFactoryState) :=
  match backend with
  | .appwrite => .error "Appwrite entries service not implemented yet"
  | .supabase => .ok (s.nextId, { s with nextId := s.nextId + 1 })

/-- Embedding of the static `ServiceFactory.getConversationsService`:
no cache; a new instance per call. -/
def getConversationsService (backend : BackendProvider) (s : ServiceFactoryState) :
    Except String (Nat × ServiceFactoryState) :=
  match backend with
  | .appwrite => .error "Appwrite conversations service not implemented yet"
  | .supabase => .ok (s.nextId, { s with nextId := s.nextId + 1 })

/-- Embedding of the static `ServiceFactory.getMessagesService`: no
cache; a new instance per call. -/
def getMessagesService (backend : BackendProvider) (s : ServiceFactoryState) :
    Except String (Nat × ServiceFactoryState) :=
  match backend with
  | .appwrite => .error "Appwrite messages service not implemented yet"
  | .supabase => .ok (s.nextId, { s with nextId := s.nextId + 1 })

/-- The delays recorded by the retry loop starting at attempt `i` form
an initial segment of the backoff sequence `backoffDelay i,
backoffDelay (i+1), ...`. -/
theorem retryGo_delays_eq (att : Nat → Except JsError String) (N : Nat) :
    ∀ (fuel i : Nat) (last : Option JsError),
      ∃ n, (retryGo att N fuel i last).delays =
        (List.range n).map (fun j => backoffDelay (i + j)) := by
  intro fuel
  induction fuel with
  | zero => intro i last; exact ⟨0, rfl⟩
  | succ fuel ih =>
    intro i last
    cases hatt : att i with
    | ok t => exact ⟨0, by simp [retryGo, hatt]⟩
    | error e =>
      by_cases hi : i < N
      · obtain ⟨n, hn⟩ := ih (i + 1) (some e)
        refine ⟨n + 1, ?_⟩
        simp only [retryGo, hatt, if_pos hi]
        rw [hn, List.range_succ_eq_map, List.map_cons, List.map_map]
        refine congrArg₂ List.cons (by simp) ?_
        refine List.map_congr_left ?_
        intro a _
        simp only [Function.comp]
        exact congrArg backoffDelay (by omega)
      · exact ⟨0, by simp [retryGo, hatt, hi]⟩

/-- The retry loop never makes more attempts than its fuel allows. -/
theorem retryGo_attempts_le (att : Nat → Except JsError String) (N : Nat) :
    ∀ (fuel i : Nat) (last : Option JsError),
      (retryGo att N fuel i last).attempts ≤ fuel := by
  intro fuel
  induction fuel with
  | zero => intro i last; simp [retryGo]
  | succ fuel ih =>
    intro i last
    cases hatt : att i with
    | ok t => simp [retryGo, hatt]
    | error e =>
      by_cases hi : i < N
      · simp only [retryGo, hatt, if_pos hi]
        exact Nat.succ_le_succ (ih (i + 1) (some e))
      · simp [retryGo, hatt, hi]

/-- When every attempt in `i..N` fails, the retry loop returns no
result, records the error of attempt `N` as the last error, and makes
exactly `N + 1 - i` attempts. -/
theorem retryGo_allFail (att : Nat → Except JsError String) (N : Nat) :
    ∀ (fuel i : Nat) (last : Option JsError) (e : JsError),
      fuel = N + 1 - i → 1 ≤ i → i ≤ N →
      (∀ k, i ≤ k → k ≤ N → ∃ ek, att k = .error ek) →
      att N = .error e →
      (retryGo att N fuel i last).result = none ∧
      (retryGo att N fuel i last).lastError = some e ∧
      (retryGo att N fuel i last).attempts = N + 1 - i := by
  intro fuel
  induction fuel with
  | zero => intro i last e hfuel _ hiN _ _; omega
  | succ fuel ih =>
    intro i last e hfuel hi1 hiN hfail hN
    obtain ⟨ei, hei⟩ := hfail i le_rfl hiN
    by_cases hi : i < N
    · have hrec := ih (i + 1) (some ei) e (by omega) (by omega) (by omega)
        (fun k hk1 hk2 => hfail k (by omega) hk2) hN
      simp only [retryGo, hei, if_pos hi]
      exact ⟨hrec.1, hrec.2.1, by omega⟩
    · have hieq : i = N := by omega
      subst hieq
      have : ei = e := by
        have := hei.symm.trans hN
        exact Except.error.inj this
      subst this
      simp only [retryGo, hei, if_neg hi]
      refine ⟨by trivial, by trivial, by omega⟩

/-- The trace component of `chatWithOllama` is the trace of its retry
loop. -/
theorem chatWithOllama_snd (att : Nat → Except JsError OllamaHttpResponse)
    (options : ChatOptions) :
    (chatWithOllama att options).2 =
      runRetry (ollamaAttempt att) (jsOrRetries options.retries) := by
  cases h : (runRetry (ollamaAttempt att) (jsOrRetries options.retries)).result <;>
    simp [chatWithOllama, h]

/-- The trace component of `chatWithDeepSeek` is the trace of its retry
loop. -/
theorem chatWithDeepSeek_snd (env : EnvVars)
    (att : Nat → Except JsError DeepSeekCompletion) (options : ChatOptions) :
    (chatWithDeepSeek env att options).2 =
      runRetry (deepSeekAttempt env att) (jsOrRetries options.retries) := by
  cases h : (runRetry (deepSeekAttempt env att) (jsOrRetries options.retries)).result <;>
    simp [chatWithDeepSeek, h]

/-- Every delay recorded by a full retry run is the backoff formula at
its position: the delay waited after failed attempt `j + 1` is
`min (1000 * 2 ^ j) 8000`. -/
theorem runRetry_delay_formula (att : Nat → Except JsError String) (N : Nat)
    (j : Nat) (h : j < (runRetry att N).delays.length) :
    (runRetry att N).delays[j]? = some (min (1000 * 2 ^ j) 8000) := by
  obtain ⟨n, hn⟩ := retryGo_delays_eq att N N 1 none
  unfold runRetry at h ⊢
  rw [hn] at h ⊢
  simp only [List.length_map, List.length_range] at h
  simp [List.getElem?_map, List.getElem?_range, h, backoffDelay,
    Nat.add_sub_cancel_left]

/-- The configured retry bound is always at least one attempt. -/
theorem jsOrRetries_pos (retries : Option Nat) : 1 ≤ jsOrRetries retries := by
  cases retries with
  | none => simp [jsOrRetries]
  | some r =>
    by_cases h : r = 0 <;> simp [jsOrRetries, h]
    omega

/-- The response of `chatWithOllama` when its retry loop yields no
result. -/
theorem chatWithOllama_fst_failure (att : Nat → Except JsError OllamaHttpResponse)
    (options : ChatOptions)
    (h : (runRetry (ollamaAttempt att) (jsOrRetries options.retries)).result = none) :
    (chatWithOllama att options).1 =
      { success := false,
        error := some (extractOllamaErrorMessage
          ((runRetry (ollamaAttempt att) (jsOrRetries options.retries)).lastError)) } := by
  simp [chatWithOllama, h]

/-- The response of `chatWithDeepSeek` when its retry loop yields no
result. -/
theorem chatWithDeepSeek_fst_failure (env : EnvVars)
    (att : Nat → Except JsError DeepSeekCompletion) (options : ChatOptions)
    (h : (runRetry (deepSeekAttempt env att) (jsOrRetries options.retries)).result = none) :
    (chatWithDeepSeek env att options).1 =
      { success := false,
        error := some (extractDeepSeekErrorMessage
          ((runRetry (deepSeekAttempt env att) (jsOrRetries options.retries)).lastError)) } := by
  simp [chatWithDeepSeek, h]

/-- C1: in every run of either provider dispatch, the backoff delay
waited after the failed attempt with index `i = j + 1` (the delay at
position `j` of the recorded delay list, which the loop only records
when attempts remain) is exactly `min (1000 * 2 ^ (i - 1), 8000)`
milliseconds, i.e. the delay sequence is `1000, 2000, 4000, ...` capped
at `8000`. -/
theorem backoff_delay_sequence (attO : Nat → Except JsError OllamaHttpResponse)
    (env : EnvVars) (attD : Nat → Except JsError DeepSeekCompletion)
    (options : ChatOptions) :
    (∀ j, j < (chatWithOllama attO options).2.delays.length →
      (chatWithOllama attO options).2.delays[j]? = some (min (1000 * 2 ^ j) 8000)) ∧
    (∀ j, j < (chatWithDeepSeek env attD options).2.delays.length →
      (chatWithDeepSeek env attD options).2.delays[j]? = some (min (1000 * 2 ^ j) 8000)) := by
  rw [chatWithOllama_snd, chatWithDeepSeek_snd]
  exact ⟨fun j h => runRetry_delay_formula _ _ j h,
         fun j h => runRetry_delay_formula _ _ j h⟩

/-- Oracle whose every call fails with a thrown `Error` of message
`boom`, for concrete checks of the Ollama path. -/
def failOllamaCall : Nat → Except JsError OllamaHttpResponse :=
  fun _ => .error (.err "boom")

/-- Oracle whose every call fails with a thrown `Error` of message
`boom`, for concrete checks of the DeepSeek path. -/
def failDeepSeekCall : Nat → Except JsError DeepSeekCompletion :=
  fun _ => .error (.err "boom")

/-- Concrete environment configuration used by the concrete checks: the
DeepSeek endpoint is configured, and the Ollama base URL is set to a
local address that differs from the hardcoded one. -/
def sampleEnv : EnvVars :=
  { LLM_API_URL_DEEPSEEK := "https://api.deepseek.com/v1",
    LLM_API_KEY_DEEPSEEK := "key",
    LLM_API_URL_OLLAMA := "http://localhost:11434",
    LLM_API_KEY_OLLAMA := "",
    DEFAULT_AI_PROVIDER := .ollama }

/-- Witness for C1: with three failing attempts, the delay waited after
the second failed attempt is `min (1000 * 2 ^ 1) 8000 = 2000`
milliseconds, and the full recorded delay list is `[1000, 2000]`. -/
theorem backoff_delay_sequence_witness :
    (chatWithOllama failOllamaCall { retries := some 3 }).2.delays[1]? =
      some (min (1000 * 2 ^ 1) 8000) ∧
    min (1000 * 2 ^ 1) 8000 = 2000 ∧
    (chatWithOllama failOllamaCall { retries := some 3 }).2.delays = [1000, 2000] := by
  refine ⟨(backoff_delay_sequence failOllamaCall sampleEnv failDeepSeekCall
    { retries := some 3 }).1 1 (by decide), by decide, by decide⟩

/-- C2: when every attempt of a dispatch fails, `chatWithOllama` and
`chatWithDeepSeek` both return `{success: false, error}` with the
message extracted from the error of the last attempt.  No exception
reaches the caller: both embedded functions are total and return a
`ChatResponse` on every path. -/
theorem allFail_returns_failure_result (attO : Nat → Except JsError OllamaHttpResponse)
    (env : EnvVars) (attD : Nat → Except JsError DeepSeekCompletion)
    (options : ChatOptions) (eO eD : JsError)
    (hO : ∀ k, 1 ≤ k → k ≤ jsOrRetries options.retries →
      ∃ ek, ollamaAttempt attO k = .error ek)
    (hON : ollamaAttempt attO (jsOrRetries options.retries) = .error eO)
    (hD : ∀ k, 1 ≤ k → k ≤ jsOrRetries options.retries →
      ∃ ek, deepSeekAttempt env attD k = .error ek)
    (hDN : deepSeekAttempt env attD (jsOrRetries options.retries) = .error eD) :
    (chatWithOllama attO options).1 =
      { success := false, error := some (extractOllamaErrorMessage (some eO)) } ∧
    (chatWithDeepSeek env attD options).1 =
      { success := false, error := some (extractDeepSeekErrorMessage (some eD)) } := by
  have hpos : 1 ≤ jsOrRetries options.retries := jsOrRetries_pos options.retries
  obtain ⟨r1, r2, r3⟩ := retryGo_allFail (ollamaAttempt attO)
    (jsOrRetries options.retries) (jsOrRetries options.retries) 1 none eO
    (by omega) le_rfl hpos hO hON
  obtain ⟨d1, d2, d3⟩ := retryGo_allFail (deepSeekAttempt env attD)
    (jsOrRetries options.retries) (jsOrRetries options.retries) 1 none eD
    (by omega) le_rfl hpos hD hDN
  have r1' : (runRetry (ollamaAttempt attO) (jsOrRetries options.retries)).result = none := r1
  have r2' : (runRetry (ollamaAttempt attO) (jsOrRetries options.retries)).lastError = some eO := r2
  have d1' : (runRetry (deepSeekAttempt env attD) (jsOrRetries options.retries)).result = none := d1
  have d2' : (runRetry (deepSeekAttempt env attD) (jsOrRetries options.retries)).lastError = some eD := d2
  rw [chatWithOllama_fst_failure attO options r1',
    chatWithDeepSeek_fst_failure env attD options d1', r2', d2']
  exact ⟨rfl, rfl⟩

/-- Witness for C2: with every attempt throwing `Error(boom)` and the
default two retries, both dispatches return a failure result carrying
the message `boom`. -/
theorem allFail_returns_failure_result_witness :
    (chatWithOllama failOllamaCall {}).1 =
      { success := false, error := some (extractOllamaErrorMessage (some (.err "boom"))) } ∧
    (chatWithDeepSeek sampleEnv failDeepSeekCall {}).1 =
      { success := false, error := some (extractDeepSeekErrorMessage (some (.err "boom"))) } ∧
    extractOllamaErrorMessage (some (.err "boom")) = "boom" ∧
    extractDeepSeekErrorMessage (some (.err "boom")) = "boom" := by
  have h := allFail_returns_failure_result failOllamaCall sampleEnv failDeepSeekCall
    {} (.err "boom") (.err "boom")
    (fun k _ _ => ⟨.err "boom", rfl⟩) rfl
    (fun k _ _ => ⟨.err "boom", rfl⟩) rfl
  exact ⟨h.1, h.2, by decide, by decide⟩

/-- C9 (amended): when every attempt fails, each provider dispatch makes
exactly `jsOrRetries options.retries` attempts, and in every run it
makes at most that many; the bound equals the configured
`options.retries` whenever that count is positive, and falls back to `2`
when the caller does not specify one.  (An explicit `retries: 0` also
falls back to `2`, because the source applies the falsy-default
`options.retries || 2`.) -/
theorem retry_attempt_count (attO : Nat → Except JsError OllamaHttpResponse)
    (env : EnvVars) (attD : Nat → Except JsError DeepSeekCompletion)
    (options : ChatOptions)
    (hO : ∀ k, 1 ≤ k → k ≤ jsOrRetries options.retries →
      ∃ ek, ollamaAttempt attO k = .error ek)
    (hD : ∀ k, 1 ≤ k → k ≤ jsOrRetries options.retries →
      ∃ ek, deepSeekAttempt env attD k = .error ek) :
    (chatWithOllama attO options).2.attempts = jsOrRetries options.retries ∧
    (chatWithDeepSeek env attD options).2.attempts = jsOrRetries options.retries ∧
    (∀ attAny : Nat → Except JsError OllamaHttpResponse,
      (chatWithOllama attAny options).2.attempts ≤ jsOrRetries options.retries) ∧
    (∀ r, options.retries = some r → 0 < r → jsOrRetries options.retries = r) ∧
    (options.retries = none → jsOrRetries options.retries = 2) := by
  have hpos : 1 ≤ jsOrRetries options.retries := jsOrRetries_pos options.retries
  obtain ⟨eO, hON⟩ := hO (jsOrRetries options.retries) hpos le_rfl
  obtain ⟨eD, hDN⟩ := hD (jsOrRetries options.retries) hpos le_rfl
  obtain ⟨-, -, r3⟩ := retryGo_allFail (ollamaAttempt attO)
    (jsOrRetries options.retries) (jsOrRetries options.retries) 1 none eO
    (by omega) le_rfl hpos hO hON
  obtain ⟨-, -, d3⟩ := retryGo_allFail (deepSeekAttempt env attD)
    (jsOrRetries options.retries) (jsOrRetries options.retries) 1 none eD
    (by omega) le_rfl hpos hD hDN
  refine ⟨?_, ?_, ?_, ?_, ?_⟩
  · rw [chatWithOllama_snd]
    calc (runRetry (ollamaAttempt attO) (jsOrRetries options.retries)).attempts
        = jsOrRetries options.retries + 1 - 1 := r3
      _ = jsOrRetries options.retries := by omega
  · rw [chatWithDeepSeek_snd]
    calc (runRetry (deepSeekAttempt env attD) (jsOrRetries options.retries)).attempts
        = jsOrRetries options.retries + 1 - 1 := d3
      _ = jsOrRetries options.retries := by omega
  · intro attAny
    rw [chatWithOllama_snd]
    exact retryGo_attempts_le _ _ _ _ _
  · intro r hr hrpos
    simp [jsOrRetries, hr]
    omega
  · intro hr
    simp [jsOrRetries, hr]

/-- Witness for C9 (amended): a configured positive retry count of `3`
yields exactly three attempts when every attempt fails. -/
theorem retry_attempt_count_witness :
    (chatWithOllama failOllamaCall { retries := some 3 }).2.attempts =
      jsOrRetries (some 3) ∧
    jsOrRetries (some 3) = 3 := by
  have h := retry_attempt_count failOllamaCall sampleEnv failDeepSeekCall
    { retries := some 3 }
    (fun k _ _ => ⟨.err "boom", rfl⟩)
    (fun k _ _ => ⟨.err "boom", rfl⟩)
  exact ⟨h.1, by decide⟩

/-- Options record with an explicit `retries: 0`, which JavaScript
treats as falsy. -/
def optionsRetriesZero : ChatOptions := { retries := some 0 }

/-- C9 counterexample: a caller-configured retry count of `0` does not
bound the attempts at `0`; both dispatches make `2` attempts, because
`options.retries || 2` treats the configured `0` as unset. -/
theorem retries_zero_attempted_twice :
    optionsRetriesZero.retries = some 0 ∧
    (chatWithOllama failOllamaCall optionsRetriesZero).2.attempts = 2 ∧
    (chatWithDeepSeek sampleEnv failDeepSeekCall optionsRetriesZero).2.attempts = 2 ∧
    (2 : Nat) ≠ 0 := by
  exact ⟨rfl, by decide, by decide, by decide⟩

/-- A successful `chatWithOllama` response carries no error field. -/
theorem chatWithOllama_success_error_none (att : Nat → Except JsError OllamaHttpResponse)
    (options : ChatOptions) (h : (chatWithOllama att options).1.success = true) :
    (chatWithOllama att options).1.error = none := by
  cases hr : (runRetry (ollamaAttempt att) (jsOrRetries options.retries)).result <;>
    simp [chatWithOllama, hr] at h ⊢

/-- A successful `chatWithDeepSeek` response carries no error field. -/
theorem chatWithDeepSeek_success_error_none (env : EnvVars)
    (att : Nat → Except JsError DeepSeekCompletion) (options : ChatOptions)
    (h : (chatWithDeepSeek env att options).1.success = true) :
    (chatWithDeepSeek env att options).1.error = none := by
  cases hr : (runRetry (deepSeekAttempt env att) (jsOrRetries options.retries)).result <;>
    simp [chatWithDeepSeek, hr] at h ⊢

/-- A successful dispatch response carries no error field, whichever
provider was selected. -/
theorem dispatchResponse_error_none (env : EnvVars)
    (attO : Nat → Except JsError OllamaHttpResponse)
    (attD : Nat → Except JsError DeepSeekCompletion) (options : ChatOptions)
    (h : (dispatchResponse env attO attD options).success = true) :
    (dispatchResponse env attO attD options).error = none := by
  unfold dispatchResponse at h ⊢
  cases hp : (mergeOptions env options).provider with
  | none =>
    rw [hp] at h
    exact chatWithOllama_success_error_none _ _ h
  | some p =>
    cases p with
    | ollama =>
      rw [hp] at h
      exact chatWithOllama_success_error_none _ _ h
    | deepseek =>
      rw [hp] at h
      exact chatWithDeepSeek_success_error_none _ _ _ h

/-- C3: when the provider dispatch succeeds and saving was requested, a
failure of the best-effort persistence step (`saveConversation`
reporting a swallowed error) leaves the chat result untouched: `chat`
still returns the successful dispatch response, with no error
surfaced. -/
theorem persistence_failure_swallowed (env : EnvVars)
    (attO : Nat → Except JsError OllamaHttpResponse)
    (attD : Nat → Except JsError DeepSeekCompletion) (pe : PersistEnv)
    (options : ChatOptions) (m : String)
    (hsucc : (dispatchResponse env attO attD options).success = true)
    (hsave : (mergeOptions env options).saveConversation = some true)
    (hfail : saveConversation pe (mergeOptions env options) = .swallowed m) :
    chat env attO attD pe options =
      (dispatchResponse env attO attD options, some (.swallowed m)) ∧
    (chat env attO attD pe options).1.success = true ∧
    (chat env attO attD pe options).1.error = none := by
  have hchat : chat env attO attD pe options =
      (dispatchResponse env attO attD options,
       some (saveConversation pe (mergeOptions env options))) := by
    unfold chat
    rw [if_pos ⟨hsucc, hsave⟩]
  rw [hchat, hfail]
  exact ⟨rfl, hsucc, dispatchResponse_error_none env attO attD options hsucc⟩

/-- Oracle whose every call returns a well-formed Ollama reply with text
`hello`. -/
def okOllamaCall : Nat → Except JsError OllamaHttpResponse :=
  fun _ => .ok { data := some { response := some "hello" } }

/-- Persistence environment in which every backend step fails: no
authenticated user, and both conversation creation and exchange
insertion return errors. -/
def failingPersistEnv : PersistEnv :=
  { currentUser := none,
    createConversationResult := .error "db down",
    createExchangeResult := fun _ => .error "db down" }

/-- Witness for C3: a successful Ollama dispatch with saving requested
and a persistence environment in which every step fails still returns
the successful response `{success: true, text: "hello"}`. -/
theorem persistence_failure_swallowed_witness :
    chat sampleEnv okOllamaCall failDeepSeekCall failingPersistEnv
      { saveConversation := some true } =
      (dispatchResponse sampleEnv okOllamaCall failDeepSeekCall
        { saveConversation := some true },
       some (.swallowed "User not authenticated")) ∧
    dispatchResponse sampleEnv okOllamaCall failDeepSeekCall
      { saveConversation := some true } =
      { success := true, text := some "hello" } := by
  have h := persistence_failure_swallowed sampleEnv okOllamaCall failDeepSeekCall
    failingPersistEnv { saveConversation := some true } "User not authenticated"
    (by decide) (by decide) (by decide)
  exact ⟨h.1, by decide⟩

/-- C6: a prompt longer than 50 characters yields a title equal to its
first 47 characters followed by `...`, whatever entry context is
supplied; a prompt of at most 50 characters with no entry context is
used verbatim as the title. -/
theorem generateConversationTitle_spec (prompt : String)
    (entries : Option (List AiEntry)) :
    (50 < prompt.length →
      generateConversationTitle prompt entries = prompt.take 47 ++ "...") ∧
    (prompt.length ≤ 50 → generateConversationTitle prompt none = prompt) := by
  constructor
  · intro h
    simp [generateConversationTitle, h]
  · intro h
    simp [generateConversationTitle, Nat.not_lt.mpr h]

set_option maxRecDepth 4000 in
/-- Witness for C6: a 51-character prompt is truncated to its first 47
characters plus `...`, and a short prompt with no entry context is kept
verbatim. -/
theorem generateConversationTitle_spec_witness :
    generateConversationTitle
      "aaaaaaaaaaaaaaaaaaaaaaaaaaaaaaaaaaaaaaaaaaaaaaaaaaa" (some []) =
      "aaaaaaaaaaaaaaaaaaaaaaaaaaaaaaaaaaaaaaaaaaaaaaa..." ∧
    generateConversationTitle "Summarize" none = "Summarize" := by
  have h1 := (generateConversationTitle_spec
    "aaaaaaaaaaaaaaaaaaaaaaaaaaaaaaaaaaaaaaaaaaaaaaaaaaa" (some [])).1 (by decide)
  have h2 := (generateConversationTitle_spec "Summarize" none).2 (by decide)
  refine ⟨?_, h2⟩
  rw [h1]
  decide

/-- C4: when the upload inside `createVoiceNote` succeeds but the
database insert fails (error value or thrown exception), the
just-uploaded storage object is deleted again — the final state equals
the initial one, so no orphaned object remains from the call — and the
operation returns an error result without inserting a row. -/
theorem createVoiceNote_insert_failure_compensated (db : Db) (fileId : String)
    (insert : InsertOutcome) (voiceNoteId : String) (md : VoiceNoteMetadata)
    (hfresh : fileId ∉ db.storage) (hfail : insert ≠ .ok) :
    (createVoiceNote db (.ok fileId) insert voiceNoteId md).1 = db ∧
    (createVoiceNote db (.ok fileId) insert voiceNoteId md).2.data = none ∧
    (createVoiceNote db (.ok fileId) insert voiceNoteId md).2.error ≠ none := by
  have hstor : (db.storage ++ [fileId]).filter (fun p => p ≠ fileId) = db.storage := by
    have h1 : db.storage.filter (fun p => p ≠ fileId) = db.storage := by
      apply List.filter_eq_self.mpr
      intro a ha
      have hne : a ≠ fileId := fun h => hfresh (h ▸ ha)
      simp [hne]
    have h2 : List.filter (fun p => decide (p ≠ fileId)) [fileId] = [] := by simp
    rw [List.filter_append, h1, h2, List.append_nil]
  cases insert with
  | ok => exact absurd rfl hfail
  | errObj m =>
    refine ⟨?_, by simp [createVoiceNote], by simp [createVoiceNote]⟩
    simp only [createVoiceNote, deleteFile]
    rw [hstor]
  | thrown e =>
    refine ⟨?_, by simp [createVoiceNote], by simp [createVoiceNote]⟩
    simp only [createVoiceNote, deleteFile]
    rw [hstor]

/-- Witness for C4: from an empty backend state, an upload followed by a
failing insert leaves the state unchanged (the uploaded object is gone)
and reports an error. -/
theorem createVoiceNote_insert_failure_compensated_witness :
    (createVoiceNote { entries := [], voicenotes := [], storage := [] }
      (.ok "u1/voicenotes/f1") (.errObj "insert failed") "vn1"
      { userId := "u1", entryId := none, duration := 3, transcript := none }).1 =
      { entries := [], voicenotes := [], storage := [] } ∧
    (createVoiceNote { entries := [], voicenotes := [], storage := [] }
      (.ok "u1/voicenotes/f1") (.errObj "insert failed") "vn1"
      { userId := "u1", entryId := none, duration := 3, transcript := none }).2.error ≠
      none := by
  have h := createVoiceNote_insert_failure_compensated
    { entries := [], voicenotes := [], storage := [] } "u1/voicenotes/f1"
    (.errObj "insert failed") "vn1"
    { userId := "u1", entryId := none, duration := 3, transcript := none }
    (by decide) (by decide)
  exact ⟨h.1, h.2.2⟩

/-- Deleting a voice note by id removes exactly the rows with that id
from the table (when the row ids are distinct) and leaves the entries
table alone: the lookup-then-delete either finds the unique row and
filters it out, or finds none and changes nothing — which is the same
filter. -/
theorem deleteVoiceNote_voicenotes (db : Db) (id : String)
    (h : (db.voicenotes.map (fun v => v.id)).Nodup) :
    ((deleteVoiceNote db id).1).voicenotes =
      db.voicenotes.filter (fun r => r.id ≠ id) ∧
    ((deleteVoiceNote db id).1).entries = db.entries := by
  unfold deleteVoiceNote getVoiceNote
  cases hm : db.voicenotes.filter (fun v => v.id = id) with
  | nil =>
    have hall : db.voicenotes.filter (fun r => r.id ≠ id) = db.voicenotes := by
      apply List.filter_eq_self.mpr
      intro a ha
      have hne : ¬(a.id = id) := by
        intro hid
        have hmem : a ∈ db.voicenotes.filter (fun v => v.id = id) :=
          List.mem_filter.mpr ⟨ha, by simp [hid]⟩
        rw [hm] at hmem
        simp at hmem
      simp [hne]
    exact ⟨hall.symm, rfl⟩
  | cons v rest =>
    cases rest with
    | nil => exact ⟨rfl, rfl⟩
    | cons w rest2 =>
      exfalso
      have hsub : List.Sublist
          ((db.voicenotes.filter (fun v => v.id = id)).map (fun v => v.id))
          (db.voicenotes.map (fun v => v.id)) :=
        (List.filter_sublist _).map _
      rw [hm] at hsub
      have hnd := h.sublist hsub
      have hv : v.id = id := by
        have hmem : v ∈ db.voicenotes.filter (fun x => x.id = id) := by
          rw [hm]; simp
        have := (List.mem_filter.mp hmem).2
        simpa using this
      have hw : w.id = id := by
        have hmem : w ∈ db.voicenotes.filter (fun x => x.id = id) := by
          rw [hm]; simp
        have := (List.mem_filter.mp hmem).2
        simpa using this
      simp only [List.map_cons, List.nodup_cons, List.mem_cons] at hnd
      exact hnd.1 (Or.inl (hv.trans hw.symm))

/-- Filtering a table preserves distinctness of the row ids. -/
theorem nodup_ids_filter (l : List VoiceNoteRow) (p : VoiceNoteRow → Bool)
    (h : (l.map (fun v => v.id)).Nodup) :
    ((l.filter p).map (fun v => v.id)).Nodup :=
  h.sublist ((List.filter_sublist l).map _)

/-- Folding `deleteVoiceNote` over a list of voice notes removes from
the table exactly the rows whose id occurs in the list (given distinct
row ids). -/
theorem foldl_deleteVoiceNote_voicenotes :
    ∀ (L : List VoiceNoteRow) (db : Db),
      (db.voicenotes.map (fun v => v.id)).Nodup →
      (L.foldl (fun d vn => (deleteVoiceNote d vn.id).1) db).voicenotes =
        db.voicenotes.filter (fun r => r.id ∉ L.map (fun v => v.id)) := by
  intro L
  induction L with
  | nil =>
    intro db h
    simp
  | cons vn L ih =>
    intro db h
    simp only [List.foldl_cons]
    obtain ⟨h1, -⟩ := deleteVoiceNote_voicenotes db vn.id h
    have hnd : (((deleteVoiceNote db vn.id).1).voicenotes.map (fun v => v.id)).Nodup := by
      rw [h1]
      exact nodup_ids_filter _ _ h
    rw [ih _ hnd, h1, List.filter_filter]
    apply List.filter_congr
    intro a ha
    by_cases h1 : a.id = vn.id <;>
      by_cases h2 : a.id ∈ L.map (fun v => v.id) <;>
      simp [h1, h2]

/-- C5: a `deleteEntry` call reports success, and (assuming the
database invariant that voice-note row ids are distinct, as guaranteed
by the primary key) it deletes every voice note whose `entryId` equals
the deleted entry id: a subsequent `getVoiceNote` lookup of each such
voice note finds nothing. -/
theorem deleteEntry_removes_entry_voiceNotes (db : Db) (entryId : String)
    (hnodup : (db.voicenotes.map (fun v => v.id)).Nodup) :
    (deleteEntry db entryId).2.success = true ∧
    ∀ vn ∈ db.voicenotes, vn.entryId = some entryId →
      getVoiceNote (deleteEntry db entryId).1 vn.id = none := by
  refine ⟨rfl, ?_⟩
  intro vn hvn hvneid
  have hfold : ((deleteEntry db entryId).1).voicenotes =
      db.voicenotes.filter
        (fun r => r.id ∉ (getVoiceNotesByEntryId db entryId).map (fun v => v.id)) :=
    foldl_deleteVoiceNote_voicenotes (getVoiceNotesByEntryId db entryId)
      { db with entries := db.entries.filter (fun e => e.id ≠ entryId) } hnodup
  have hvnmem : vn ∈ getVoiceNotesByEntryId db entryId :=
    List.mem_filter.mpr ⟨hvn, by simp [hvneid]⟩
  have hvnid : vn.id ∈ (getVoiceNotesByEntryId db entryId).map (fun v => v.id) :=
    List.mem_map.mpr ⟨vn, hvnmem, rfl⟩
  have hnil : ((deleteEntry db entryId).1).voicenotes.filter
      (fun v => v.id = vn.id) = [] := by
    apply List.filter_eq_nil_iff.mpr
    intro a ha
    rw [hfold] at ha
    have hprop := (List.mem_filter.mp ha).2
    simp only [decide_not, Bool.not_eq_true', decide_eq_false_iff_not] at hprop
    intro haid
    simp only [decide_eq_true_eq] at haid
    exact hprop (haid ▸ hvnid)
  unfold getVoiceNote
  rw [hnil]

/-- Entry row used by the concrete checks. -/
def sampleEntryRow : EntryRow :=
  { id := "e1", userId := "u1", title := "Trip", content := "Went hiking" }

/-- Voice note attached to the sample entry. -/
def sampleVoiceNote : VoiceNoteRow :=
  { id := "vn1", fileId := "u1/entries/e1/voicenotes/f1", userId := "u1",
    entryId := some "e1", duration := 3, transcript := "" }

/-- Backend state with one entry, one attached voice note and one
unattached voice note. -/
def sampleDb : Db :=
  { entries := [sampleEntryRow],
    voicenotes := [sampleVoiceNote,
      { id := "vn2", fileId := "f2", userId := "u1", entryId := none,
        duration := 1, transcript := "" }],
    storage := ["u1/entries/e1/voicenotes/f1", "f2"] }

/-- Witness for C5: deleting the sample entry succeeds and the attached
voice note can no longer be looked up. -/
theorem deleteEntry_removes_entry_voiceNotes_witness :
    (deleteEntry sampleDb "e1").2.success = true ∧
    getVoiceNote (deleteEntry sampleDb "e1").1 "vn1" = none := by
  have h := deleteEntry_removes_entry_voiceNotes sampleDb "e1" (by decide)
  exact ⟨h.1, h.2 sampleVoiceNote (by decide) (by decide)⟩

/-- C7 (code-bug evidence): the Ollama dispatch builds its request with
the model, prompt, temperature, max_tokens and stream flag and reads
the reply text from the `response` field, but the base URL of the
`POST .../api/generate` request is the hardcoded
`http://100.101.151.91:11434` for every configuration: with the
configurable `LLM_API_URL_OLLAMA` set to a local address, the URL the
code uses differs from the configured generation endpoint. -/
theorem ollama_request_url_hardcoded :
    (∀ (env : EnvVars) (prompt : String) (options : ChatOptions),
      (buildOllamaRequest env prompt options).url =
        "http://100.101.151.91:11434/api/generate") ∧
    specOllamaRequestUrl sampleEnv = "http://localhost:11434/api/generate" ∧
    (buildOllamaRequest sampleEnv "Summarize" {}).url ≠ specOllamaRequestUrl sampleEnv ∧
    buildOllamaRequest sampleEnv "Summarize"
      { model := some "gemma3:12b", temperature := some (7 / 10 : ℚ),
        maxTokens := some 1024, stream := some false } =
      { url := "http://100.101.151.91:11434/api/generate",
        model := some "gemma3:12b", prompt := "Summarize",
        temperature := some (7 / 10 : ℚ), max_tokens := some 1024,
        stream := some false } ∧
    ollamaAttempt (fun _ => .ok { data := some { response := some "txt" } }) 1 =
      .ok "txt" := by
  exact ⟨fun env prompt options => rfl, rfl, by decide, rfl, rfl⟩

/-- C8 counterexample: two consecutive calls to the static
`getEntriesService` getter of the service factory construct two
distinct instances (allocation identities `0` and `1`), so the factory
does not cache one instance for that domain service. -/
theorem factory_entries_getter_not_cached :
    getEntriesService .supabase initialFactoryState =
      .ok (0, { initialFactoryState with nextId := 1 }) ∧
    getEntriesService .supabase { initialFactoryState with nextId := 1 } =
      .ok (1, { initialFactoryState with nextId := 2 }) ∧
    (0 : Nat) ≠ 1 :=
  ⟨rfl, rfl, by decide⟩

/-- C8 (amended): the four instance getters of the service factory
(auth, profile, storage, database) lazily construct and cache one
instance: a second call after a successful call returns the same
instance with the state unchanged.  (The static getters for voice
notes, entries, conversations and messages have no cache and return a
fresh instance per call.) -/
theorem factory_instance_getters_cached (b : BackendProvider)
    (s : ServiceFactoryState) :
    (∀ inst s2, getAuthService b s = .ok (inst, s2) →
      getAuthService b s2 = .ok (inst, s2)) ∧
    (∀ inst s2, getProfileService b s = .ok (inst, s2) →
      getProfileService b s2 = .ok (inst, s2)) ∧
    (∀ inst s2, getStorageService b s = .ok (inst, s2) →
      getStorageService b s2 = .ok (inst, s2)) ∧
    (∀ inst s2, getDatabaseService b s = .ok (inst, s2) →
      getDatabaseService b s2 = .ok (inst, s2)) := by
  refine ⟨?_, ?_, ?_, ?_⟩
  · intro inst s2 h
    unfold getAuthService at h ⊢
    cases hc : s.authService with
    | some i =>
      rw [hc] at h
      simp only [Except.ok.injEq, Prod.mk.injEq] at h
      obtain ⟨h1, h2⟩ := h
      subst h1
      subst h2
      rw [hc]
    | none =>
      cases b with
      | appwrite => rw [hc] at h; cases h
      | supabase =>
        rw [hc] at h
        simp only [Except.ok.injEq, Prod.mk.injEq] at h
        obtain ⟨h1, h2⟩ := h
        subst h1
        subst h2
        rfl
  · intro inst s2 h
    unfold getProfileService at h ⊢
    cases hc : s.profileService with
    | some i =>
      rw [hc] at h
      simp only [Except.ok.injEq, Prod.mk.injEq] at h
      obtain ⟨h1, h2⟩ := h
      subst h1
      subst h2
      rw [hc]
    | none =>
      cases b with
      | appwrite => rw [hc] at h; cases h
      | supabase =>
        rw [hc] at h
        simp only [Except.ok.injEq, Prod.mk.injEq] at h
        obtain ⟨h1, h2⟩ := h
        subst h1
        subst h2
        rfl
  · intro inst s2 h
    unfold getStorageService at h ⊢
    cases hc : s.storageService with
    | some i =>
      rw [hc] at h
      simp only [Except.ok.injEq, Prod.mk.injEq] at h
      obtain ⟨h1, h2⟩ := h
      subst h1
      subst h2
      rw [hc]
    | none =>
      cases b with
      | appwrite => rw [hc] at h; cases h
      | supabase =>
        rw [hc] at h
        simp only [Except.ok.injEq, Prod.mk.injEq] at h
        obtain ⟨h1, h2⟩ := h
        subst h1
        subst h2
        rfl
  · intro inst s2 h
    unfold getDatabaseService at h ⊢
    cases hc : s.databaseService with
    | some i =>
      rw [hc] at h
      simp only [Except.ok.injEq, Prod.mk.injEq] at h
      obtain ⟨h1, h2⟩ := h
      subst h1
      subst h2
      rw [hc]
    | none =>
      cases b with
      | appwrite => rw [hc] at h; cases h
      | supabase =>
        rw [hc] at h
        simp only [Except.ok.injEq, Prod.mk.injEq] at h
        obtain ⟨h1, h2⟩ := h
        subst h1
        subst h2
        rfl

/-- Witness for C8 (amended): the first `getAuthService` call on the
fresh factory state allocates instance `0`, and a second call returns
that same instance with the state unchanged. -/
theorem factory_instance_getters_cached_witness :
    getAuthService .supabase
      { nextId := 1, authService := some 0, profileService := none,
        storageService := none, databaseService := none } =
      .ok (0, { nextId := 1, authService := some 0, profileService := none,
                storageService := none, databaseService := none }) :=
  (factory_instance_getters_cached .supabase initialFactoryState).1 0
    { nextId := 1, authService := some 0, profileService := none,
      storageService := none, databaseService := none } rfl

/-- C10: `createExchange` is not atomic: with the user-message insert
succeeding and the AI-message insert failing, the call returns an error
result `{data: [], error}` while the already-inserted user message
remains appended to the table — the first insert is not rolled back. -/
theorem createExchange_not_atomic (messages : List MessageRow)
    (m conversationId userPrompt aiResponse : String)
    (metadata : Option ExchangeMeta) :
    createExchange messages (.ok ()) (.error m) conversationId userPrompt
      aiResponse metadata =
      (messages ++ [{ author := "user", content := userPrompt,
                      conversationId := conversationId, isLiked := false,
                      metadata := none }],
       { data := [],
         error := some (jsOrString m "Failed to create message exchange") }) := rfl
